import Mathlib

/-!
# Verification of the pdf-processor server (`src/pdf_processor_server.py`)

A shallow embedding of the three request handlers (`extract_pdf_text`,
`extract_pdf_metadata`, `extract_pdf_section`) and the dispatcher
(`call_tool`).  The filesystem (`Path(...).expanduser().resolve()` /
`Path.exists`) and the external subprocess runs are abstracted as
parameters; each handler additionally returns the list of subprocess
invocations it performed, so "no subprocess is invoked" is the log
being empty.

Python string operations on `"\n"`- and `":"`-separated text are
embedded at the character-list level (`List Char`), with `String`
wrappers, so that the split/join round-trip facts used by the theorems
can be proved by structural induction.
-/

namespace PdfProc

/-- Python `text.split("\n")`: split the character list on every
occurrence of the newline character (`List.splitOn`, whose semantics —
`"".split` gives one empty segment, `k` separators give `k+1`
segments — match Python `str.split` with an explicit separator). -/
def pySplitNl (s : String) : List String :=
  (s.data.splitOn '\x0a').map String.mk

/-- Python `"\n".join(l)`. -/
def pyJoinNl (l : List String) : String :=
  String.mk (List.intercalate ['\x0a'] (l.map String.data))

/-- Python `line.split(":", 1)`: split on the first occurrence only.
Returns `none` when the separator does not occur (Python would return a
one-element list; the callers only use this under an `":" in line`
guard). -/
def splitFirstChar (c : Char) : List Char → Option (List Char × List Char)
  | [] => none
  | x :: xs =>
    if x = c then some ([], xs)
    else
      match splitFirstChar c xs with
      | none => none
      | some (a, b) => some (x :: a, b)

/-- Python `str.isspace` for a single character (the characters
`str.strip()` removes).  ASCII whitespace plus the common Unicode
space characters. -/
def pyIsSpace (c : Char) : Bool :=
  c = ' ' || c = '\x09' || c = '\x0a' || c = '\x0b' || c = '\x0c' || c = '\x0d' ||
  c = '\x1c' || c = '\x1d' || c = '\x1e' || c = '\x1f' || c = '\x85' || c = '\xa0' ||
  c = '\u1680' || c = '\u2000' || c = '\u2001' || c = '\u2002' || c = '\u2003' ||
  c = '\u2004' || c = '\u2005' || c = '\u2006' || c = '\u2007' || c = '\u2008' ||
  c = '\u2009' || c = '\u200A' || c = '\u2028' || c = '\u2029' || c = '\u202F' ||
  c = '\u205F' || c = '\u3000'

/-- Python `str.strip()` on a character list. -/
def pyStripChars (l : List Char) : List Char :=
  ((l.dropWhile pyIsSpace).reverse.dropWhile pyIsSpace).reverse

/-- Python `str.strip()`. -/
def pyStrip (s : String) : String :=
  String.mk (pyStripChars s.data)

/-- Python list slicing `l[:m]` for an integer `m`: nonnegative `m`
takes the first `m` elements; negative `m` removes the last `|m|`
elements (`Nat` subtraction clamps at zero, as Python slicing does). -/
def pySlice (l : List α) (m : Int) : List α :=
  if 0 ≤ m then l.take m.toNat
  else l.take (l.length - (-m).toNat)

/-- Index of the last occurrence of `c` in `l` (Python `str.rfind`),
`none` when absent. -/
def rfindIdx (c : Char) : List Char → Option Nat
  | [] => none
  | x :: xs =>
    match rfindIdx c xs with
    | some i => some (i + 1)
    | none => if x = c then some 0 else none

/-- `PurePath.name`: the final path component (text after the last
`/`). -/
def pathName (p : String) : List Char :=
  (p.data.splitOn '/').getLastD []

/-- `PurePath.suffix` as CPython computes it: the substring of the
final component from its last dot, unless that dot is the first or the
last character of the component (then there is no suffix). -/
def pathSuffix (p : String) : List Char :=
  let name := pathName p
  match rfindIdx '.' name with
  | some i => if 0 < i ∧ i < name.length - 1 then name.drop i else []
  | none => []

/-- `file_path.suffix.lower() == ".pdf"` (`Char.toLower`, which agrees
with Python `str.lower` on every character relevant to this ASCII
comparison). -/
def isPdfSuffix (p : String) : Bool :=
  (pathSuffix p).map Char.toLower == ['.', 'p', 'd', 'f']

/-- The filesystem as seen through `pathlib`: `resolve` models
`Path(file_path).expanduser().resolve()` (rendered back as the string
the code embeds in messages), `pathExists` models
`Path.exists()` on the resolved path. -/
structure FS where
  resolve : String → String
  pathExists : String → Bool

/-- One `subprocess.run` request: the argv list and the timeout in
seconds. -/
structure Cmd where
  argv : List String
  timeoutSec : Nat
deriving DecidableEq, Repr

/-- The outcome of one `subprocess.run` call: normal completion with
exit code and captured streams, `subprocess.TimeoutExpired`,
`FileNotFoundError` (executable not on the path), or any other
exception with its `str(e)` rendering. -/
inductive RunOutcome where
  | completed (returncode : Int) (stdout stderr : String)
  | timeoutExpired
  | fileNotFound
  | otherExc (msg : String)
deriving DecidableEq, Repr

/-- The environment's behavior for subprocess invocations. -/
def Runner := Cmd → RunOutcome

/-- Values appearing in the returned dictionaries. -/
inductive Val where
  | vstr (s : String)
  | vbool (b : Bool)
  | vint (n : Int)
  | vdict (m : List (String × String))
deriving DecidableEq, Repr

/-- A Python dict result, as an insertion-ordered association list. -/
abbrev PyDict := List (String × Val)

/-- Python dict lookup (keys in our dicts are unique, so first match). -/
def lookupVal (d : PyDict) (k : String) : Option Val :=
  match d.find? (fun p => p.1 == k) with
  | some p => some p.2
  | none => none

/-- `str(TimeoutExpired)`: `"Command '<argv list>' timed out after <t>
seconds"` (list rendered Python-style; quote escaping inside argv
elements is not modelled, no theorem depends on it). -/
def timeoutExpiredMsg (c : Cmd) : String :=
  "Command '[" ++ String.intercalate ", " (c.argv.map (fun a => "'" ++ a ++ "'")) ++
    "]' timed out after " ++ toString c.timeoutSec ++ " seconds"

/-- `dict.__setitem__` on an insertion-ordered association list with
unique keys: an existing key keeps its position and gets the new
value, a new key is appended. -/
def dictInsert (m : List (String × String)) (k v : String) :
    List (String × String) :=
  if m.any (fun p => p.1 == k) then
    m.map (fun p => if p.1 == k then (p.1, v) else p)
  else m ++ [(k, v)]

/-- One iteration of the `pdfinfo` output parse loop: a line containing
a colon is split on the first colon into a stripped key and stripped
value; a line without a colon is skipped. -/
def parseMetadataLine (line : String) : Option (String × String) :=
  match splitFirstChar ':' line.data with
  | some (k, v) => some (pyStrip (String.mk k), pyStrip (String.mk v))
  | none => none

/-- The `pdfinfo` stdout parse loop of `extract_pdf_metadata`
(lines 161-165 of `pdf_processor_server.py`). -/
def parseMetadata (stdout : String) : List (String × String) :=
  (pySplitNl stdout).foldl
    (fun m line =>
      match parseMetadataLine line with
      | some (k, v) => dictInsert m k v
      | none => m)
    []

/-- The `subprocess.run` argv of the full-text extraction
(`["pdftotext", str(file_path), "-"]`, `timeout=60`). -/
def pdftotextCmd (fp : String) : Cmd := ⟨["pdftotext", fp, "-"], 60⟩

/-- The `subprocess.run` argv of the metadata extraction
(`["pdfinfo", str(file_path)]`, `timeout=30`). -/
def pdfinfoCmd (fp : String) : Cmd := ⟨["pdfinfo", fp], 30⟩

/-- The `subprocess.run` argv of the page-range extraction
(`["pdftotext", "-f", str(start_page), "-l", str(end_page),
str(file_path), "-"]`, `timeout=60`). -/
def pdftotextRangeCmd (start_page end_page : Int) (fp : String) : Cmd :=
  ⟨["pdftotext", "-f", toString start_page, "-l", toString end_page, fp, "-"], 60⟩

/-- Lines 119-121: `if max_lines:` (Python truthiness — `None` and `0`
are falsy) then keep `lines[:max_lines]` rejoined. -/
def truncatedText (out : String) (max_lines : Option Int) : String :=
  match max_lines with
  | some m => if m ≠ 0 then pyJoinNl (pySlice (pySplitNl out) m) else out
  | none => out

/-- `extract_pdf_text` (lines 96-136): validate the resolved path, run
`pdftotext <path> -` with a 60s timeout, optionally truncate to
`max_lines` newline segments (Python truthiness: `None` and `0` mean
no truncation), and report the text together with the count of newline
segments of the returned text.  The second component of the result is
the list of subprocess invocations performed. -/
def extract_pdf_text (fs : FS) (run : Runner) (file_path : String)
    (max_lines : Option Int) : PyDict × List Cmd :=
  let fp := fs.resolve file_path
  if !fs.pathExists fp then
    ([("error", .vstr ("File not found: " ++ fp))], [])
  else if !isPdfSuffix fp then
    ([("error", .vstr "File must be a PDF")], [])
  else
    let cmd := pdftotextCmd fp
    match run cmd with
    | .completed rc out err =>
      if rc ≠ 0 then
        ([("error", .vstr ("PDF extraction failed: " ++ err))], [cmd])
      else
        let text := truncatedText out max_lines
        ([("success", .vbool true), ("file_path", .vstr fp), ("text", .vstr text),
          ("lines", .vint ((pySplitNl text).length : Int))], [cmd])
    | .timeoutExpired =>
      ([("error", .vstr "PDF extraction timed out")], [cmd])
    | .fileNotFound =>
      ([("error", .vstr "pdftotext not found. Install with: brew install poppler (macOS) or apt-get install poppler-utils (Linux)")], [cmd])
    | .otherExc msg =>
      ([("error", .vstr ("Error extracting PDF: " ++ msg))], [cmd])

/-- `extract_pdf_metadata` (lines 139-173): validate the resolved
path, run `pdfinfo <path>` with a 30s timeout, and parse the output.
This handler has no `except subprocess.TimeoutExpired` branch, so a
timeout falls through to the generic `except Exception` wrapper with
`str(e)`. -/
def extract_pdf_metadata (fs : FS) (run : Runner) (file_path : String) :
    PyDict × List Cmd :=
  let fp := fs.resolve file_path
  if !fs.pathExists fp then
    ([("error", .vstr ("File not found: " ++ fp))], [])
  else if !isPdfSuffix fp then
    ([("error", .vstr "File must be a PDF")], [])
  else
    let cmd := pdfinfoCmd fp
    match run cmd with
    | .completed rc out err =>
      if rc ≠ 0 then
        ([("error", .vstr ("Failed to extract metadata: " ++ err))], [cmd])
      else
        ([("success", .vbool true), ("file_path", .vstr fp),
          ("metadata", .vdict (parseMetadata out))], [cmd])
    | .timeoutExpired =>
      ([("error", .vstr ("Error extracting metadata: " ++ timeoutExpiredMsg cmd))], [cmd])
    | .fileNotFound =>
      ([("error", .vstr "pdfinfo not found. Install with: brew install poppler (macOS) or apt-get install poppler-utils (Linux)")], [cmd])
    | .otherExc msg =>
      ([("error", .vstr ("Error extracting metadata: " ++ msg))], [cmd])

/-- `extract_pdf_section` (lines 176-221): validate the resolved path
and the page range, run `pdftotext -f <start> -l <end> <path> -` with
a 60s timeout.  Like `extract_pdf_metadata`, this handler has no
`except subprocess.TimeoutExpired` branch: a timeout is wrapped by the
generic `except Exception` handler. -/
def extract_pdf_section (fs : FS) (run : Runner) (file_path : String)
    (start_page end_page : Int) : PyDict × List Cmd :=
  let fp := fs.resolve file_path
  if !fs.pathExists fp then
    ([("error", .vstr ("File not found: " ++ fp))], [])
  else if !isPdfSuffix fp then
    ([("error", .vstr "File must be a PDF")], [])
  else if start_page < 1 ∨ end_page < start_page then
    ([("error", .vstr "Invalid page range")], [])
  else
    let cmd := pdftotextRangeCmd start_page end_page fp
    match run cmd with
    | .completed rc out err =>
      if rc ≠ 0 then
        ([("error", .vstr ("PDF extraction failed: " ++ err))], [cmd])
      else
        ([("success", .vbool true), ("file_path", .vstr fp),
          ("pages", .vstr (toString start_page ++ "-" ++ toString end_page)),
          ("text", .vstr out)], [cmd])
    | .timeoutExpired =>
      ([("error", .vstr ("Error extracting PDF: " ++ timeoutExpiredMsg cmd))], [cmd])
    | .fileNotFound =>
      ([("error", .vstr "pdftotext not found. Install with: brew install poppler (macOS) or apt-get install poppler-utils (Linux)")], [cmd])
    | .otherExc msg =>
      ([("error", .vstr ("Error extracting PDF: " ++ msg))], [cmd])

/-- The arguments mapping of a call request, restricted to values of
the types the published input schemas declare; a `none` field models
the key being absent from the dict. -/
structure Args where
  file_path : Option String
  max_lines : Option Int
  start_page : Option Int
  end_page : Option Int
deriving DecidableEq, Repr

/-- An exception escaping `call_tool`: the explicit
`ValueError(f"Unknown tool: {name}")`, or the `KeyError` from
`arguments["..."]` on a missing required key. -/
inductive PyExc where
  | valueError (msg : String)
  | keyError (key : String)
deriving DecidableEq, Repr

/-- The value of a dispatched call: a returned dict, or an exception
propagating out of the dispatcher. -/
inductive DispatchResult where
  | ok (d : PyDict)
  | raised (e : PyExc)
deriving DecidableEq, Repr

/-- `call_tool` (lines 80-93): route by tool name.  Required arguments
are read with `arguments["..."]` (a missing key raises `KeyError`),
the optional `max_lines` with `arguments.get("max_lines")`; an
unrecognized name raises `ValueError`. -/
def call_tool (fs : FS) (run : Runner) (name : String) (args : Args) :
    DispatchResult × List Cmd :=
  if name == "extract_pdf_text" then
    match args.file_path with
    | none => (.raised (.keyError "file_path"), [])
    | some fp =>
      let r := extract_pdf_text fs run fp args.max_lines
      (.ok r.1, r.2)
  else if name == "extract_pdf_metadata" then
    match args.file_path with
    | none => (.raised (.keyError "file_path"), [])
    | some fp =>
      let r := extract_pdf_metadata fs run fp
      (.ok r.1, r.2)
  else if name == "extract_pdf_section" then
    match args.file_path with
    | none => (.raised (.keyError "file_path"), [])
    | some fp =>
      match args.start_page with
      | none => (.raised (.keyError "start_page"), [])
      | some sp =>
        match args.end_page with
        | none => (.raised (.keyError "end_page"), [])
        | some ep =>
          let r := extract_pdf_section fs run fp sp ep
          (.ok r.1, r.2)
  else
    (.raised (.valueError ("Unknown tool: " ++ name)), [])

/-- A filesystem in which every path resolves to itself and exists. -/
def idFS : FS := ⟨fun p => p, fun _ => true⟩

/-- A filesystem in which every path resolves to itself and no path
exists. -/
def absentFS : FS := ⟨fun p => p, fun _ => false⟩

/-- A runner returning the same outcome for every invocation. -/
def constRunner (o : RunOutcome) : Runner := fun _ => o

/-! ## Split/join lemmas -/

theorem splitOnP_sep_false {α : Type} {p : α → Bool} :
    ∀ (xs : List α), ∀ a ∈ xs.splitOnP p, ∀ y ∈ a, p y = false := by
  intro xs
  induction xs with
  | nil =>
    intro a ha y hy
    rw [List.splitOnP_nil] at ha
    simp at ha
    subst ha
    simp at hy
  | cons hd tl ih =>
    intro a ha y hy
    rw [List.splitOnP_cons] at ha
    by_cases hp : p hd = true
    · rw [if_pos hp] at ha
      rcases List.mem_cons.mp ha with h | h
      · subst h; simp at hy
      · exact ih a h y hy
    · rw [if_neg hp] at ha
      rcases h' : tl.splitOnP p with _ | ⟨b, bs⟩
      · exact absurd h' (List.splitOnP_ne_nil _ _)
      · rw [h'] at ha
        simp only [List.modifyHead] at ha
        rcases List.mem_cons.mp ha with h | h
        · subst h
          rcases List.mem_cons.mp hy with h | h
          · subst h; exact Bool.eq_false_iff.mpr hp
          · exact ih b (h' ▸ List.mem_cons_self b bs) y h
        · exact ih a (h' ▸ List.mem_cons_of_mem b h) y hy

theorem sep_not_mem_splitOn {α : Type} [DecidableEq α] {x : α} {xs a : List α}
    (h : a ∈ xs.splitOn x) : x ∉ a := by
  intro hx
  have := splitOnP_sep_false (p := (· == x)) xs a h x hx
  simp at this

theorem nl_not_mem_pySplitNl {s t : String} (h : t ∈ pySplitNl s) : '\x0a' ∉ t.data := by
  unfold pySplitNl at h
  rcases List.mem_map.mp h with ⟨a, ha, rfl⟩
  exact sep_not_mem_splitOn ha

theorem pySplitNl_ne_nil (s : String) : pySplitNl s ≠ [] := by
  unfold pySplitNl
  intro h
  exact List.splitOnP_ne_nil _ _ (List.map_eq_nil_iff.mp h)

theorem map_mk_map_data (L : List String) : (L.map String.data).map String.mk = L := by
  rw [List.map_map]
  exact List.map_id L

theorem pySplitNl_pyJoinNl {L : List String} (hL : L ≠ [])
    (h : ∀ t ∈ L, '\x0a' ∉ t.data) : pySplitNl (pyJoinNl L) = L := by
  unfold pySplitNl pyJoinNl
  have hx : ∀ l ∈ L.map String.data, '\x0a' ∉ l := by
    intro l hl
    rcases List.mem_map.mp hl with ⟨t, ht, rfl⟩
    exact h t ht
  have hls : L.map String.data ≠ [] := by
    intro hnil; exact hL (List.map_eq_nil_iff.mp hnil)
  rw [show (String.mk (List.intercalate ['\x0a'] (L.map String.data))).data =
        List.intercalate ['\x0a'] (L.map String.data) from rfl]
  rw [List.splitOn_intercalate (L.map String.data) '\x0a' hx hls]
  exact map_mk_map_data L

theorem pySplitNl_length_pos (s : String) : 0 < (pySplitNl s).length :=
  List.length_pos.mpr (pySplitNl_ne_nil s)


/-! ## Metadata dict lemmas -/

/-- Python dict lookup on a metadata mapping. -/
def lookupMeta (m : List (String × String)) (q : String) : Option String :=
  match m.find? (fun p => p.1 == q) with
  | some p => some p.2
  | none => none

theorem lookupMeta_cons (a b q : String) (tl : List (String × String)) :
    lookupMeta ((a, b) :: tl) q = if a = q then some b else lookupMeta tl q := by
  by_cases h : a = q
  · subst h
    simp [lookupMeta, List.find?_cons]
  · simp [lookupMeta, List.find?_cons, h]

theorem lookupMeta_append (m₁ m₂ : List (String × String)) (q : String) :
    lookupMeta (m₁ ++ m₂) q = (lookupMeta m₁ q).or (lookupMeta m₂ q) := by
  unfold lookupMeta
  rw [List.find?_append]
  cases m₁.find? (fun p => p.1 == q) <;> simp

/-- The value update `p ↦ if p.1 == k then (p.1, v) else p` does not
change lookups at other keys. -/
theorem lookupMeta_update_ne (k v q : String) (hq : k ≠ q) (m : List (String × String)) :
    lookupMeta (m.map (fun p => if p.1 == k then (p.1, v) else p)) q = lookupMeta m q := by
  induction m with
  | nil => rfl
  | cons hd tl ih =>
    obtain ⟨a, b⟩ := hd
    by_cases hak : a = k
    · subst hak
      simp only [List.map_cons, beq_self_eq_true, if_true]
      rw [lookupMeta_cons, lookupMeta_cons, if_neg hq, if_neg hq]
      exact ih
    · simp only [List.map_cons, beq_eq_false_iff_ne.mpr hak, Bool.false_eq_true, if_false]
      rw [lookupMeta_cons, lookupMeta_cons]
      by_cases haq : a = q
      · simp [haq]
      · rw [if_neg haq, if_neg haq]; exact ih

/-- When the key occurs, the value update wins the lookup at that key. -/
theorem lookupMeta_update_eq (k v : String) (m : List (String × String))
    (hany : m.any (fun p => p.1 == k) = true) :
    lookupMeta (m.map (fun p => if p.1 == k then (p.1, v) else p)) k = some v := by
  induction m with
  | nil => simp at hany
  | cons hd tl ih =>
    obtain ⟨a, b⟩ := hd
    by_cases hak : a = k
    · subst hak
      simp only [List.map_cons, beq_self_eq_true, if_true]
      rw [lookupMeta_cons, if_pos rfl]
    · simp only [List.any_cons, beq_eq_false_iff_ne.mpr hak, Bool.false_or] at hany
      simp only [List.map_cons, beq_eq_false_iff_ne.mpr hak, Bool.false_eq_true, if_false]
      rw [lookupMeta_cons, if_neg hak]
      exact ih hany

/-- When the key does not occur, its lookup is `none`. -/
theorem lookupMeta_eq_none (k : String) (m : List (String × String))
    (hany : m.any (fun p => p.1 == k) = false) :
    lookupMeta m k = none := by
  induction m with
  | nil => rfl
  | cons hd tl ih =>
    obtain ⟨a, b⟩ := hd
    simp only [List.any_cons, Bool.or_eq_false_iff] at hany
    rw [lookupMeta_cons, if_neg (by simpa using hany.1)]
    exact ih hany.2

/-- Lookup after a Python dict update: the new value at the written
key, everything else unchanged. -/
theorem lookupMeta_dictInsert (m : List (String × String)) (k v q : String) :
    lookupMeta (dictInsert m k v) q = if k = q then some v else lookupMeta m q := by
  unfold dictInsert
  by_cases hany : m.any (fun p => p.1 == k) = true
  · rw [if_pos hany]
    by_cases hkq : k = q
    · subst hkq
      rw [if_pos rfl]
      exact lookupMeta_update_eq k v m hany
    · rw [if_neg hkq]
      exact lookupMeta_update_ne k v q hkq m
  · rw [if_neg hany]
    rw [lookupMeta_append]
    by_cases hkq : k = q
    · subst hkq
      rw [lookupMeta_eq_none k m (Bool.eq_false_iff.mpr hany), if_pos rfl]
      rw [lookupMeta_cons, if_pos rfl]
      rfl
    · rw [if_neg hkq]
      rw [lookupMeta_cons, if_neg hkq]
      simp [lookupMeta]

/-- "Last occurrence of a duplicate key wins", as the spec words it:
among the parsed `(key, value)` pairs of the lines containing a colon,
the value of the last pair with the queried key. -/
def specMetadataLookup (stdout q : String) : Option String :=
  (((pySplitNl stdout).filterMap parseMetadataLine).reverse.find?
    (fun p => p.1 == q)).map Prod.snd

theorem lookupMeta_parse_foldl (q : String) (lines : List String) :
    ∀ m, lookupMeta (lines.foldl (fun m line =>
        match parseMetadataLine line with
        | some (k, v) => dictInsert m k v
        | none => m) m) q =
      (((lines.filterMap parseMetadataLine).reverse.find? (fun p => p.1 == q)).map
        Prod.snd).or (lookupMeta m q) := by
  induction lines with
  | nil => intro m; simp
  | cons hd tl ih =>
    intro m
    rw [List.foldl_cons, List.filterMap_cons]
    cases hph : parseMetadataLine hd with
    | none => exact ih m
    | some kv =>
      obtain ⟨k, v⟩ := kv
      rw [ih (dictInsert m k v), lookupMeta_dictInsert,
        List.reverse_cons, List.find?_append]
      cases (tl.filterMap parseMetadataLine).reverse.find? (fun p => p.1 == q) with
      | some x => simp
      | none =>
        by_cases hkq : k = q
        · subst hkq
          simp [List.find?_cons]
        · simp [List.find?_cons, beq_eq_false_iff_ne.mpr hkq, hkq]


/-! ## Handler branch lemmas -/

/-- On a valid path and a zero-exit run, `extract_pdf_text` returns
the success dict built from the (possibly truncated) stdout. -/
theorem extract_pdf_text_success (fs : FS) (run : Runner) (p : String) (ml : Option Int)
    (out err : String)
    (hex : fs.pathExists (fs.resolve p) = true)
    (hsuf : isPdfSuffix (fs.resolve p) = true)
    (hrun : run (pdftotextCmd (fs.resolve p)) = .completed 0 out err) :
    extract_pdf_text fs run p ml =
      ([("success", .vbool true), ("file_path", .vstr (fs.resolve p)),
        ("text", .vstr (truncatedText out ml)),
        ("lines", .vint ((pySplitNl (truncatedText out ml)).length : Int))],
       [pdftotextCmd (fs.resolve p)]) := by
  simp [extract_pdf_text, hex, hsuf, hrun]

/-- On a valid path and a zero-exit run, `extract_pdf_metadata`
returns the success dict with the parsed mapping. -/
theorem extract_pdf_metadata_success (fs : FS) (run : Runner) (p : String)
    (out err : String)
    (hex : fs.pathExists (fs.resolve p) = true)
    (hsuf : isPdfSuffix (fs.resolve p) = true)
    (hrun : run (pdfinfoCmd (fs.resolve p)) = .completed 0 out err) :
    extract_pdf_metadata fs run p =
      ([("success", .vbool true), ("file_path", .vstr (fs.resolve p)),
        ("metadata", .vdict (parseMetadata out))],
       [pdfinfoCmd (fs.resolve p)]) := by
  simp [extract_pdf_metadata, hex, hsuf, hrun]

/-! ## Claim theorems -/

/-- C2: for every stdout of the metadata tool on a zero exit, the
returned mapping is built by splitting each colon-containing line on
the first colon into a trimmed key and trimmed value, dropping lines
without a colon, the last occurrence of a duplicate key winning; in
particular `"Title: Report\nPages: 5\n"` yields
`{"Title": "Report", "Pages": "5"}`. -/
theorem C2_metadata_first_colon_last_wins (fs : FS) (run : Runner) (p : String)
    (out err : String)
    (hex : fs.pathExists (fs.resolve p) = true)
    (hsuf : isPdfSuffix (fs.resolve p) = true)
    (hrun : run (pdfinfoCmd (fs.resolve p)) = .completed 0 out err) :
    lookupVal (extract_pdf_metadata fs run p).1 "metadata" =
      some (.vdict (parseMetadata out)) ∧
    (∀ q, lookupMeta (parseMetadata out) q = specMetadataLookup out q) ∧
    parseMetadata "Title: Report\nPages: 5\n" = [("Title", "Report"), ("Pages", "5")] := by
  refine ⟨?_, ?_, rfl⟩
  · rw [extract_pdf_metadata_success fs run p out err hex hsuf hrun]
    simp [lookupVal, List.find?]
  · intro q
    unfold parseMetadata specMetadataLookup
    rw [lookupMeta_parse_foldl q (pySplitNl out) []]
    simp [lookupMeta]

/-- Witness for C2 at a concrete stub environment. -/
theorem C2_metadata_first_colon_last_wins_witness :
    lookupVal (extract_pdf_metadata idFS
        (constRunner (.completed 0 "Title: Report\nPages: 5\n" "")) "/d.pdf").1 "metadata" =
      some (.vdict [("Title", "Report"), ("Pages", "5")]) :=
  (C2_metadata_first_colon_last_wins idFS
    (constRunner (.completed 0 "Title: Report\nPages: 5\n" "")) "/d.pdf"
    "Title: Report\nPages: 5\n" "" rfl rfl rfl).1

/-- C3: with a valid existing `.pdf` path, every page range with
`start_page < 1` or `end_page < start_page` yields exactly
`{error: "Invalid page range"}` and no subprocess is invoked. -/
theorem C3_invalid_page_range (fs : FS) (run : Runner) (p : String) (sp ep : Int)
    (hex : fs.pathExists (fs.resolve p) = true)
    (hsuf : isPdfSuffix (fs.resolve p) = true)
    (hrange : sp < 1 ∨ ep < sp) :
    extract_pdf_section fs run p sp ep = ([("error", .vstr "Invalid page range")], []) := by
  simp [extract_pdf_section, hex, hsuf, hrange]

/-- Witness for C3 at a concrete input. -/
theorem C3_invalid_page_range_witness :
    extract_pdf_section idFS (constRunner .fileNotFound) "/d.pdf" 0 5 =
      ([("error", .vstr "Invalid page range")], []) :=
  C3_invalid_page_range idFS (constRunner .fileNotFound) "/d.pdf" 0 5 rfl rfl
    (by decide)

/-- C4: a non-existent resolved path, or an existing one whose suffix
is not `.pdf` case-insensitively, makes every one of the three
operations return an `{error: ...}` dict without invoking any
subprocess. -/
theorem C4_path_validation (fs : FS) (run : Runner) (p : String) (ml : Option Int)
    (sp ep : Int) :
    (fs.pathExists (fs.resolve p) = false →
      extract_pdf_text fs run p ml =
        ([("error", .vstr ("File not found: " ++ fs.resolve p))], []) ∧
      extract_pdf_metadata fs run p =
        ([("error", .vstr ("File not found: " ++ fs.resolve p))], []) ∧
      extract_pdf_section fs run p sp ep =
        ([("error", .vstr ("File not found: " ++ fs.resolve p))], [])) ∧
    (fs.pathExists (fs.resolve p) = true → isPdfSuffix (fs.resolve p) = false →
      extract_pdf_text fs run p ml = ([("error", .vstr "File must be a PDF")], []) ∧
      extract_pdf_metadata fs run p = ([("error", .vstr "File must be a PDF")], []) ∧
      extract_pdf_section fs run p sp ep = ([("error", .vstr "File must be a PDF")], [])) := by
  constructor
  · intro hex
    refine ⟨?_, ?_, ?_⟩ <;>
      simp [extract_pdf_text, extract_pdf_metadata, extract_pdf_section, hex]
  · intro hex hsuf
    refine ⟨?_, ?_, ?_⟩ <;>
      simp [extract_pdf_text, extract_pdf_metadata, extract_pdf_section, hex, hsuf]

/-- Witness for C4: a missing path and a non-`.pdf` suffix at concrete
inputs. -/
theorem C4_path_validation_witness :
    extract_pdf_text absentFS (constRunner .fileNotFound) "/d.pdf" none =
      ([("error", .vstr "File not found: /d.pdf")], []) ∧
    extract_pdf_section idFS (constRunner .fileNotFound) "/d.txt" 1 2 =
      ([("error", .vstr "File must be a PDF")], []) :=
  ⟨((C4_path_validation absentFS (constRunner .fileNotFound) "/d.pdf" none 1 2).1 rfl).1,
   (((C4_path_validation idFS (constRunner .fileNotFound) "/d.txt" none 1 2).2 rfl rfl).2).2⟩


/-- C5: truncation happens iff `max_lines` is supplied and truthy: a
positive `n` keeps only the first `n` newline-delimited segments of
stdout; absent (`None`) or `0` returns the full stdout untruncated
(zero is "no limit", not "zero lines"). -/
theorem C5_truncation_iff_truthy (fs : FS) (run : Runner) (p : String)
    (out err : String)
    (hex : fs.pathExists (fs.resolve p) = true)
    (hsuf : isPdfSuffix (fs.resolve p) = true)
    (hrun : run (pdftotextCmd (fs.resolve p)) = .completed 0 out err) :
    (∀ n : Int, 0 < n →
      lookupVal (extract_pdf_text fs run p (some n)).1 "text" =
        some (.vstr (pyJoinNl ((pySplitNl out).take n.toNat)))) ∧
    lookupVal (extract_pdf_text fs run p none).1 "text" = some (.vstr out) ∧
    lookupVal (extract_pdf_text fs run p (some 0)).1 "text" = some (.vstr out) := by
  refine ⟨?_, ?_, ?_⟩
  · intro n hn
    rw [extract_pdf_text_success fs run p (some n) out err hex hsuf hrun]
    have h1 : truncatedText out (some n) = pyJoinNl ((pySplitNl out).take n.toNat) := by
      simp only [truncatedText, pySlice]
      rw [if_pos (by omega : n ≠ 0), if_pos (by omega : (0 : Int) ≤ n)]
    rw [h1]
    simp [lookupVal, List.find?]
  · rw [extract_pdf_text_success fs run p none out err hex hsuf hrun]
    simp [lookupVal, List.find?, truncatedText]
  · rw [extract_pdf_text_success fs run p (some 0) out err hex hsuf hrun]
    simp [lookupVal, List.find?, truncatedText]

/-- Witness for C5 at a concrete stub environment. -/
theorem C5_truncation_iff_truthy_witness :
    lookupVal (extract_pdf_text idFS (constRunner (.completed 0 "A\nB\nC\n" ""))
        "/d.pdf" (some 2)).1 "text" = some (.vstr "A\nB") ∧
    lookupVal (extract_pdf_text idFS (constRunner (.completed 0 "A\nB\nC\n" ""))
        "/d.pdf" none).1 "text" = some (.vstr "A\nB\nC\n") :=
  ⟨(C5_truncation_iff_truthy idFS (constRunner (.completed 0 "A\nB\nC\n" "")) "/d.pdf"
      "A\nB\nC\n" "" rfl rfl rfl).1 2 (by decide),
   (C5_truncation_iff_truthy idFS (constRunner (.completed 0 "A\nB\nC\n" "")) "/d.pdf"
      "A\nB\nC\n" "" rfl rfl rfl).2.1⟩

/-- C8: every run exiting non-zero yields an error string carrying the
captured stderr — `"PDF extraction failed: <stderr>"` for text and
section extraction, `"Failed to extract metadata: <stderr>"` for
metadata — and the stderr (in particular `"bad file"`) appears inside
the error string. -/
theorem C8_nonzero_exit_stderr (fs : FS) (run : Runner) (p : String) (rc : Int)
    (out err : String) (ml : Option Int) (sp ep : Int)
    (hex : fs.pathExists (fs.resolve p) = true)
    (hsuf : isPdfSuffix (fs.resolve p) = true)
    (hrc : rc ≠ 0) :
    (run (pdftotextCmd (fs.resolve p)) = .completed rc out err →
      extract_pdf_text fs run p ml =
        ([("error", .vstr ("PDF extraction failed: " ++ err))],
         [pdftotextCmd (fs.resolve p)])) ∧
    (run (pdfinfoCmd (fs.resolve p)) = .completed rc out err →
      extract_pdf_metadata fs run p =
        ([("error", .vstr ("Failed to extract metadata: " ++ err))],
         [pdfinfoCmd (fs.resolve p)])) ∧
    (1 ≤ sp → sp ≤ ep →
      run (pdftotextRangeCmd sp ep (fs.resolve p)) = .completed rc out err →
      extract_pdf_section fs run p sp ep =
        ([("error", .vstr ("PDF extraction failed: " ++ err))],
         [pdftotextRangeCmd sp ep (fs.resolve p)])) ∧
    (∃ a b : String, ("PDF extraction failed: " ++ err) = a ++ err ++ b) ∧
    (∃ a b : String, ("Failed to extract metadata: " ++ err) = a ++ err ++ b) := by
  refine ⟨?_, ?_, ?_, ?_, ?_⟩
  · intro hrun
    simp [extract_pdf_text, hex, hsuf, hrun, hrc]
  · intro hrun
    simp [extract_pdf_metadata, hex, hsuf, hrun, hrc]
  · intro hsp hep hrun
    have hr : ¬(sp < 1 ∨ ep < sp) := by omega
    simp [extract_pdf_section, hex, hsuf, hr, hrun, hrc]
  · exact ⟨"PDF extraction failed: ", "", (String.append_empty _).symm⟩
  · exact ⟨"Failed to extract metadata: ", "", (String.append_empty _).symm⟩

/-- Witness for C8 at a concrete stub exiting 1 with stderr
`"bad file"`. -/
theorem C8_nonzero_exit_stderr_witness :
    extract_pdf_text idFS (constRunner (.completed 1 "" "bad file")) "/d.pdf" none =
      ([("error", .vstr "PDF extraction failed: bad file")], [pdftotextCmd "/d.pdf"]) :=
  (C8_nonzero_exit_stderr idFS (constRunner (.completed 1 "" "bad file")) "/d.pdf" 1
    "" "bad file" none 1 2 rfl rfl (by decide)).1 rfl

/-- C9: when the external executable is missing (`FileNotFoundError`),
each operation returns an error dict containing installation guidance
(`"Install with:"`), and that message is distinct from the generic
exception wrapping. -/
theorem C9_executable_missing (fs : FS) (run : Runner) (p : String) (ml : Option Int)
    (sp ep : Int)
    (hex : fs.pathExists (fs.resolve p) = true)
    (hsuf : isPdfSuffix (fs.resolve p) = true) :
    (run (pdftotextCmd (fs.resolve p)) = .fileNotFound →
      extract_pdf_text fs run p ml =
        ([("error", .vstr "pdftotext not found. Install with: brew install poppler (macOS) or apt-get install poppler-utils (Linux)")],
         [pdftotextCmd (fs.resolve p)])) ∧
    (run (pdfinfoCmd (fs.resolve p)) = .fileNotFound →
      extract_pdf_metadata fs run p =
        ([("error", .vstr "pdfinfo not found. Install with: brew install poppler (macOS) or apt-get install poppler-utils (Linux)")],
         [pdfinfoCmd (fs.resolve p)])) ∧
    (1 ≤ sp → sp ≤ ep →
      run (pdftotextRangeCmd sp ep (fs.resolve p)) = .fileNotFound →
      extract_pdf_section fs run p sp ep =
        ([("error", .vstr "pdftotext not found. Install with: brew install poppler (macOS) or apt-get install poppler-utils (Linux)")],
         [pdftotextRangeCmd sp ep (fs.resolve p)])) ∧
    (∃ a b : String,
      "pdftotext not found. Install with: brew install poppler (macOS) or apt-get install poppler-utils (Linux)" =
        a ++ "Install with:" ++ b) ∧
    (∃ a b : String,
      "pdfinfo not found. Install with: brew install poppler (macOS) or apt-get install poppler-utils (Linux)" =
        a ++ "Install with:" ++ b) ∧
    (∀ m : String,
      "pdftotext not found. Install with: brew install poppler (macOS) or apt-get install poppler-utils (Linux)" ≠
        "Error extracting PDF: " ++ m) ∧
    (∀ m : String,
      "pdfinfo not found. Install with: brew install poppler (macOS) or apt-get install poppler-utils (Linux)" ≠
        "Error extracting metadata: " ++ m) := by
  refine ⟨?_, ?_, ?_, ?_, ?_, ?_, ?_⟩
  · intro hrun
    simp [extract_pdf_text, hex, hsuf, hrun]
  · intro hrun
    simp [extract_pdf_metadata, hex, hsuf, hrun]
  · intro hsp hep hrun
    have hr : ¬(sp < 1 ∨ ep < sp) := by omega
    simp [extract_pdf_section, hex, hsuf, hr, hrun]
  · exact ⟨"pdftotext not found. ", " brew install poppler (macOS) or apt-get install poppler-utils (Linux)", rfl⟩
  · exact ⟨"pdfinfo not found. ", " brew install poppler (macOS) or apt-get install poppler-utils (Linux)", rfl⟩
  · intro m h
    have h2 := congrArg (fun s => s.data.take 3) h
    simp at h2
  · intro m h
    have h2 := congrArg (fun s => s.data.take 3) h
    simp at h2

/-- Witness for C9 at a concrete stub environment. -/
theorem C9_executable_missing_witness :
    extract_pdf_metadata idFS (constRunner .fileNotFound) "/d.pdf" =
      ([("error", .vstr "pdfinfo not found. Install with: brew install poppler (macOS) or apt-get install poppler-utils (Linux)")],
       [pdfinfoCmd "/d.pdf"]) :=
  (C9_executable_missing idFS (constRunner .fileNotFound) "/d.pdf" none 1 2
    rfl rfl).2.1 rfl


/-- C1 counterexample: with stdout `"A\nB\nC\n"` and no `max_lines`,
the code reports `lines = 4` (the trailing empty segment after the
final newline is counted), not `3` as the claim states. -/
theorem C1_counterexample :
    (extract_pdf_text idFS (constRunner (.completed 0 "A\nB\nC\n" ""))
        "/doc.pdf" none).1 =
      [("success", .vbool true), ("file_path", .vstr "/doc.pdf"),
       ("text", .vstr "A\nB\nC\n"), ("lines", .vint 4)] ∧ (4 : Int) ≠ 3 :=
  ⟨rfl, by decide⟩

/-- C1 (amended): on a successful run the result carries a `text`
field and a `lines` field equal to the count of newline-delimited
segments of that text; with `max_lines=2` the stub stdout gives
`text="A\nB"`, `lines=2`, and with no `max_lines` it gives all of
`"A\nB\nC\n"` with `lines=4` (not 3: the trailing empty segment is
counted). -/
theorem C1_lines_field (fs : FS) (run : Runner) (p : String) (ml : Option Int)
    (out err : String)
    (hex : fs.pathExists (fs.resolve p) = true)
    (hsuf : isPdfSuffix (fs.resolve p) = true)
    (hrun : run (pdftotextCmd (fs.resolve p)) = .completed 0 out err) :
    (∃ t : String,
      lookupVal (extract_pdf_text fs run p ml).1 "text" = some (.vstr t) ∧
      lookupVal (extract_pdf_text fs run p ml).1 "lines" =
        some (.vint ((pySplitNl t).length : Int))) ∧
    (extract_pdf_text idFS (constRunner (.completed 0 "A\nB\nC\n" ""))
        "/doc.pdf" (some 2)).1 =
      [("success", .vbool true), ("file_path", .vstr "/doc.pdf"),
       ("text", .vstr "A\nB"), ("lines", .vint 2)] ∧
    (extract_pdf_text idFS (constRunner (.completed 0 "A\nB\nC\n" ""))
        "/doc.pdf" none).1 =
      [("success", .vbool true), ("file_path", .vstr "/doc.pdf"),
       ("text", .vstr "A\nB\nC\n"), ("lines", .vint 4)] := by
  refine ⟨?_, rfl, rfl⟩
  refine ⟨truncatedText out ml, ?_, ?_⟩ <;>
    rw [extract_pdf_text_success fs run p ml out err hex hsuf hrun] <;>
    simp [lookupVal, List.find?]

/-- Witness for the amended C1 at a concrete stub environment. -/
theorem C1_lines_field_witness :
    ∃ t : String,
      lookupVal (extract_pdf_text idFS (constRunner (.completed 0 "A\nB\nC\n" ""))
          "/doc.pdf" none).1 "text" = some (.vstr t) ∧
      lookupVal (extract_pdf_text idFS (constRunner (.completed 0 "A\nB\nC\n" ""))
          "/doc.pdf" none).1 "lines" = some (.vint ((pySplitNl t).length : Int)) :=
  (C1_lines_field idFS (constRunner (.completed 0 "A\nB\nC\n" "")) "/doc.pdf" none
    "A\nB\nC\n" "" rfl rfl rfl).1

/-- C6 counterexample: a timeout of the metadata tool is not a
distinct failure mode: the handler has no `TimeoutExpired` branch, so
the payload is byte-identical to the generic exception wrapping of
`str(TimeoutExpired(...))`. -/
theorem C6_counterexample :
    (extract_pdf_metadata idFS (constRunner .timeoutExpired) "/d.pdf").1 =
      (extract_pdf_metadata idFS
        (constRunner (.otherExc (timeoutExpiredMsg (pdfinfoCmd "/d.pdf")))) "/d.pdf").1 ∧
    (extract_pdf_metadata idFS (constRunner .timeoutExpired) "/d.pdf").1 =
      [("error", .vstr "Error extracting metadata: Command '['pdfinfo', '/d.pdf']' timed out after 30 seconds")] :=
  ⟨rfl, rfl⟩

/-- C6 (amended): every operation returns an error payload on timeout
rather than hanging, but only `extract_pdf_text` surfaces the timeout
as a distinct failure mode (`"PDF extraction timed out"`, which no
generic wrapping produces); `extract_pdf_metadata` and
`extract_pdf_section` route the timeout through the generic
any-other-exception wrapping of `str(e)`. -/
theorem C6_timeout_behavior (fs : FS) (run : Runner) (p : String) (ml : Option Int)
    (sp ep : Int)
    (hex : fs.pathExists (fs.resolve p) = true)
    (hsuf : isPdfSuffix (fs.resolve p) = true) :
    (run (pdftotextCmd (fs.resolve p)) = .timeoutExpired →
      extract_pdf_text fs run p ml =
        ([("error", .vstr "PDF extraction timed out")], [pdftotextCmd (fs.resolve p)])) ∧
    (∀ m : String, "PDF extraction timed out" ≠ "Error extracting PDF: " ++ m) ∧
    (run (pdfinfoCmd (fs.resolve p)) = .timeoutExpired →
      extract_pdf_metadata fs run p =
        ([("error", .vstr ("Error extracting metadata: " ++
            timeoutExpiredMsg (pdfinfoCmd (fs.resolve p))))],
         [pdfinfoCmd (fs.resolve p)]) ∧
      extract_pdf_metadata fs run p =
        (extract_pdf_metadata fs
          (constRunner (.otherExc (timeoutExpiredMsg (pdfinfoCmd (fs.resolve p))))) p)) ∧
    (1 ≤ sp → sp ≤ ep →
      run (pdftotextRangeCmd sp ep (fs.resolve p)) = .timeoutExpired →
      extract_pdf_section fs run p sp ep =
        ([("error", .vstr ("Error extracting PDF: " ++
            timeoutExpiredMsg (pdftotextRangeCmd sp ep (fs.resolve p))))],
         [pdftotextRangeCmd sp ep (fs.resolve p)])) := by
  refine ⟨?_, ?_, ?_, ?_⟩
  · intro hrun
    simp [extract_pdf_text, hex, hsuf, hrun]
  · intro m h
    have h2 := congrArg (fun s => s.data.take 3) h
    simp at h2
  · intro hrun
    constructor
    · simp [extract_pdf_metadata, hex, hsuf, hrun]
    · simp [extract_pdf_metadata, hex, hsuf, hrun, constRunner]
  · intro hsp hep hrun
    have hr : ¬(sp < 1 ∨ ep < sp) := by omega
    simp [extract_pdf_section, hex, hsuf, hr, hrun]

/-- Witness for the amended C6 at a concrete stub environment. -/
theorem C6_timeout_behavior_witness :
    extract_pdf_text idFS (constRunner .timeoutExpired) "/d.pdf" none =
      ([("error", .vstr "PDF extraction timed out")], [pdftotextCmd "/d.pdf"]) :=
  (C6_timeout_behavior idFS (constRunner .timeoutExpired) "/d.pdf" none 1 2
    rfl rfl).1 rfl


/-- C7 counterexample: a recognized tool name with the required
`file_path` argument missing also makes the dispatcher raise (a
`KeyError`, not the unknown-tool `ValueError`), so an unrecognized
name is not the only raising input. -/
theorem C7_counterexample :
    call_tool idFS (constRunner .fileNotFound) "extract_pdf_text"
        ⟨none, none, none, none⟩ = (.raised (.keyError "file_path"), []) ∧
    PyExc.keyError "file_path" ≠ PyExc.valueError "Unknown tool: extract_pdf_text" :=
  ⟨rfl, fun h => PyExc.noConfusion h⟩

/-- C7 (amended): the dispatcher raises `ValueError` for every tool
name other than the three known ones; for a known name it raises
`KeyError` when a required argument is missing from the arguments
mapping; with the required arguments present it never raises and its
value is the handler's returned dict (handler failures are structured
error payloads inside that dict). -/
theorem C7_dispatcher (fs : FS) (run : Runner) (name : String) (args : Args) :
    (name ≠ "extract_pdf_text" → name ≠ "extract_pdf_metadata" →
      name ≠ "extract_pdf_section" →
      call_tool fs run name args =
        (.raised (.valueError ("Unknown tool: " ++ name)), [])) ∧
    (∀ fp, args.file_path = some fp →
      call_tool fs run "extract_pdf_text" args =
        (.ok (extract_pdf_text fs run fp args.max_lines).1,
         (extract_pdf_text fs run fp args.max_lines).2) ∧
      call_tool fs run "extract_pdf_metadata" args =
        (.ok (extract_pdf_metadata fs run fp).1, (extract_pdf_metadata fs run fp).2) ∧
      (∀ sp ep, args.start_page = some sp → args.end_page = some ep →
        call_tool fs run "extract_pdf_section" args =
          (.ok (extract_pdf_section fs run fp sp ep).1,
           (extract_pdf_section fs run fp sp ep).2))) ∧
    (args.file_path = none →
      call_tool fs run "extract_pdf_text" args = (.raised (.keyError "file_path"), []) ∧
      call_tool fs run "extract_pdf_metadata" args = (.raised (.keyError "file_path"), []) ∧
      call_tool fs run "extract_pdf_section" args = (.raised (.keyError "file_path"), [])) := by
  refine ⟨?_, ?_, ?_⟩
  · intro h1 h2 h3
    simp [call_tool, h1, h2, h3]
  · intro fp hfp
    refine ⟨?_, ?_, ?_⟩
    · simp [call_tool, hfp]
    · simp [call_tool, hfp]
    · intro sp ep hsp hep
      simp [call_tool, hfp, hsp, hep]
  · intro hfp
    refine ⟨?_, ?_, ?_⟩ <;> simp [call_tool, hfp]

/-- Witness for the amended C7 at concrete inputs. -/
theorem C7_dispatcher_witness :
    call_tool idFS (constRunner .fileNotFound) "bogus_tool" ⟨none, none, none, none⟩ =
      (.raised (.valueError "Unknown tool: bogus_tool"), []) ∧
    call_tool idFS (constRunner .fileNotFound) "extract_pdf_metadata"
        ⟨some "/d.pdf", none, none, none⟩ =
      (.ok (extract_pdf_metadata idFS (constRunner .fileNotFound) "/d.pdf").1,
       (extract_pdf_metadata idFS (constRunner .fileNotFound) "/d.pdf").2) :=
  ⟨(C7_dispatcher idFS (constRunner .fileNotFound) "bogus_tool"
      ⟨none, none, none, none⟩).1 (by decide) (by decide) (by decide),
   ((C7_dispatcher idFS (constRunner .fileNotFound) "extract_pdf_metadata"
      ⟨some "/d.pdf", none, none, none⟩).2.1 "/d.pdf" rfl).2.1⟩

/-- C10 counterexample: on a one-segment stdout (`"A"`) with
`max_lines = -1`, Python slicing removes the only segment so the text
is empty, but the reported `lines` is `1` (the empty string re-splits
to one empty segment), not `n - 1 = 0` as the claim's formula
demands. -/
theorem C10_counterexample :
    (extract_pdf_text idFS (constRunner (.completed 0 "A" "")) "/d.pdf"
        (some (-1))).1 =
      [("success", .vbool true), ("file_path", .vstr "/d.pdf"),
       ("text", .vstr ""), ("lines", .vint 1)] ∧
    (pySplitNl "A").length = 1 ∧ (1 : Int) ≠ ((1 : Int) - 1) :=
  ⟨rfl, rfl, by decide⟩

/-- C10 (amended): a negative `max_lines = m` is truthy, so it is
neither a line limit nor "no limit": the returned text is the stdout
with its last `min(|m|, n)` newline-delimited segments removed
(Python negative slicing), and the reported `lines` is `n - |m|` when
`|m| < n` but `1` when `|m| ≥ n` (the empty join re-splits to a single
empty segment). -/
theorem C10_negative_max_lines (fs : FS) (run : Runner) (p : String)
    (out err : String) (m : Int)
    (hex : fs.pathExists (fs.resolve p) = true)
    (hsuf : isPdfSuffix (fs.resolve p) = true)
    (hrun : run (pdftotextCmd (fs.resolve p)) = .completed 0 out err)
    (hm : m < 0) :
    lookupVal (extract_pdf_text fs run p (some m)).1 "text" =
      some (.vstr (pyJoinNl ((pySplitNl out).take
        ((pySplitNl out).length - (-m).toNat)))) ∧
    lookupVal (extract_pdf_text fs run p (some m)).1 "lines" =
      some (.vint (if (-m).toNat < (pySplitNl out).length
        then (((pySplitNl out).length - (-m).toNat : Nat) : Int) else 1)) := by
  have htr : truncatedText out (some m) =
      pyJoinNl ((pySplitNl out).take ((pySplitNl out).length - (-m).toNat)) := by
    simp only [truncatedText, pySlice]
    rw [if_pos (by omega : m ≠ 0), if_neg (by omega : ¬ (0 : Int) ≤ m)]
  rw [extract_pdf_text_success fs run p (some m) out err hex hsuf hrun]
  constructor
  · rw [htr]
    simp [lookupVal, List.find?]
  · rw [htr]
    by_cases hk : (-m).toNat < (pySplitNl out).length
    · have hne : (pySplitNl out).take ((pySplitNl out).length - (-m).toNat) ≠ [] := by
        intro h
        have := congrArg List.length h
        simp [List.length_take] at this
        omega
      have hnl : ∀ t ∈ (pySplitNl out).take ((pySplitNl out).length - (-m).toNat),
          '\x0a' ∉ t.data := by
        intro t ht
        exact nl_not_mem_pySplitNl (List.take_subset _ _ ht)
      rw [pySplitNl_pyJoinNl hne hnl, if_pos hk]
      simp [lookupVal, List.find?, List.length_take]
    · have h0 : (pySplitNl out).length - (-m).toNat = 0 := by omega
      rw [h0, if_neg hk]
      simp [lookupVal, List.find?]
      rfl
  
/-- Witness for the amended C10 at a concrete stub environment
(`"A\nB\nC\n"` has 4 segments; `max_lines = -1` leaves 3). -/
theorem C10_negative_max_lines_witness :
    lookupVal (extract_pdf_text idFS (constRunner (.completed 0 "A\nB\nC\n" ""))
        "/d.pdf" (some (-1))).1 "lines" = some (.vint 3) :=
  (C10_negative_max_lines idFS (constRunner (.completed 0 "A\nB\nC\n" "")) "/d.pdf"
    "A\nB\nC\n" "" (-1) rfl rfl rfl (by decide)).2


end PdfProc
